import Mathlib

/-!
A Lean model of `tox_pyenv_install.py`, a tox plugin that resolves a requested
python environment name to an interpreter executable via pyenv, optionally
installing the interpreter on demand.

The python source is translated function by function:

* the four anchored version-string regexes of `PyVersion` are modelled by
  character-list recognizers implementing exactly the backtracking behaviour
  of the patterns (lazy prefix groups, greedy digit groups, and the python
  semantics of `$`, which also matches just before one final newline);
* the pyenv subprocess layer is modelled by an explicit environment `Env`
  recording the outcome of each external interaction, and every fallible
  operation returns `Except Exc`;
* python dicts keyed by heterogeneous values are modelled with `PyKey` so
  that the lookup of a version tuple in a string-keyed dict (as performed by
  `PyEnv.find_installable_pyversion`) is reproduced faithfully.

Documented simplifications: the regex class `\d` is modelled by the ASCII
digits and `str.strip` by the ASCII whitespace set (the python versions also
accept some unicode characters); log messages are not modelled, and error
messages are abbreviated to the data they carry.
-/

namespace ToxPyenv

/-- The detail levels of a parsed python version, `PyVersionDetailLevel` in the
source, with `Enum` values MAJOR = 1, MINOR = 2, PATCH = 3. -/
inductive PyVersionDetailLevel where
  | MAJOR
  | MINOR
  | PATCH
deriving DecidableEq, Repr

/-- `PyVersionDetailLevel(n)` for an integer `n`: the member with value `n`,
raising `ValueError` (modelled as `none`) for any other integer. -/
def detailLevelOfValue : Nat → Option PyVersionDetailLevel
  | 1 => some .MAJOR
  | 2 => some .MINOR
  | 3 => some .PATCH
  | _ => none

/-- `PyImplementation` in the source. -/
inductive PyImplementation where
  | CPython
  | Other
deriving DecidableEq, Repr

/-- One component of a python version tuple.  The source builds tuples such as
`(PyImplementation.CPython, 3, 11, 2)` or `(PyImplementation.CPython, 3, 11, "dev")`:
the first component is the implementation enum member, the remaining components
are ints, except that the alternate form keeps its suffix as a string. -/
inductive VPart where
  | imp (i : PyImplementation)
  | num (n : Nat)
  | str (s : String)
deriving DecidableEq, Repr

/-- The exception taxonomy of the plugin.  All constructors except
`hostTypeError` correspond to subclasses of `ToxPyenvException`;
`hostTypeError` models a `TypeError` escaping from `subprocess.Popen` when
`find_pyenv_executable` returned `None`, which no handler of the plugin
catches. -/
inductive Exc where
  | unknownVersionStringFormat (versionString : String)
  | pyenvMissing (msg : String)
  | pyenvWhichFailed (msg : String)
  | pyenvInstallFailed (msg : String)
  | listInstallCandidatesFailed (msg : String)
  | rootPathFailed (msg : String)
  | listInstalledFailed (msg : String)
  | pluginFailed
  | hostTypeError
deriving DecidableEq, Repr

/-- Whether an exception is a `ToxPyenvException` (and hence caught by the
`except ToxPyenvException` handler of `tox_get_python_executable`). -/
def isToxPyenvException : Exc → Bool
  | .hostTypeError => false
  | _ => true

/-- Outcome of spawning one subprocess: either `Popen` raised `OSError`, or the
process ran to completion with an exit code and captured stdout/stderr. -/
inductive SpawnResult where
  | osError
  | ran (exitCode : Int) (out : String) (err : String)
deriving DecidableEq, Repr

/-! ## Character-level models of the four version-string regexes -/

/-- Numeric value of an ASCII digit. -/
def digitVal (c : Char) : Nat := c.toNat - '0'.toNat

/-- `int` applied to a string of digits. -/
def digitsToNat (cs : List Char) : Nat := cs.foldl (fun n c => n * 10 + digitVal c) 0

/-- Greedy `\d+`/`\d*`: split off the maximal leading run of digits. -/
def takeDigits : List Char → List Char × List Char
  | [] => ([], [])
  | c :: cs =>
    if c.isDigit then
      let p := takeDigits cs
      (c :: p.1, p.2)
    else ([], c :: cs)

/-- Python `$` (no MULTILINE): matches at the end of the string or just before
one final newline. -/
def atEnd : List Char → Bool
  | [] => true
  | ['\n'] => true
  | _ => false

/-- Python `str.strip` whitespace test (ASCII part). -/
def pyIsSpace (c : Char) : Bool :=
  c = ' ' || c = '\t' || c = '\n' || c = '\r' || c = '\x0b' || c = '\x0c'

/-- `str.strip` on a character list. -/
def pyStripList (cs : List Char) : List Char :=
  ((cs.dropWhile pyIsSpace).reverse.dropWhile pyIsSpace).reverse

/-- `str.strip`. -/
def pyStrip (s : String) : String := ⟨pyStripList s.data⟩

/-- `str.split` on a single newline character: `"a\nb".split('\n') = ["a","b"]`,
and the split of the empty string is `[""]`. -/
def splitNL : List Char → List (List Char)
  | [] => [[]]
  | c :: rest =>
    let r := splitNL rest
    if c = '\n' then [] :: r
    else
      match r with
      | h :: t => (c :: h) :: t
      | [] => [[c]]

/-- `a.startswith(b)` at the character-list level: `charsStartWith p l` holds
when `p` is a positional prefix of `l`. -/
def charsStartWith : List Char → List Char → Bool
  | [], _ => true
  | _ :: _, [] => false
  | a :: as, b :: bs => a == b && charsStartWith as bs

/-- Python `a.startswith(b)`. -/
def strStartsWith (a b : String) : Bool := charsStartWith b.data a.data

/-- Continuation of the tox-form regex after the `py`/`python` alternative:
`(\d)(\d+)$`, one digit for the major version then at least one further digit
for the minor version.  The greedy `(\d+)` is deterministic here because a
shorter match would leave a digit where `$` must match. -/
def toxSuffix (cs : List Char) : Option (Nat × Nat) :=
  match cs with
  | [] => none
  | d :: rest =>
    if d.isDigit then
      let p := takeDigits rest
      if p.1 ≠ [] ∧ atEnd p.2 then some (digitVal d, digitsToNat p.1) else none
    else none

/-- Continuation of `patch_py_version_re` after the lazy prefix:
`(\d+)\.(\d+)\.(\d+)$`.  The greedy digit groups are deterministic because a
shorter digit run would leave a digit where a dot or `$` must match. -/
def parsePatchSuffix (cs : List Char) : Option (Nat × Nat × Nat) :=
  let pa := takeDigits cs
  if pa.1 = [] then none else
  match pa.2 with
  | '.' :: r2 =>
    let pb := takeDigits r2
    if pb.1 = [] then none else
    match pb.2 with
    | '.' :: r4 =>
      let pc := takeDigits r4
      if pc.1 ≠ [] ∧ atEnd pc.2 then
        some (digitsToNat pa.1, digitsToNat pb.1, digitsToNat pc.1)
      else none
    | _ => none
  | _ => none

/-- Continuation of `minor_py_version_re` after the lazy prefix:
`(\d+?)\.(\d+)$`.  The lazy `(\d+?)` can only stop where a dot follows, which
is the end of the maximal digit run, so it is deterministic as well. -/
def parseMinorSuffix (cs : List Char) : Option (Nat × Nat) :=
  let pa := takeDigits cs
  if pa.1 = [] then none else
  match pa.2 with
  | '.' :: r2 =>
    let pb := takeDigits r2
    if pb.1 ≠ [] ∧ atEnd pb.2 then some (digitsToNat pa.1, digitsToNat pb.1) else none
  | _ => none

/-- Continuation of `alt_py_version_re` after the lazy prefix:
`(\d+?)\.(\d+)[-_\.](.+?)$`.  The trailing `(.+?)$` matches when the remainder,
less one optional final newline, is nonempty and newline-free (regex `.` does
not match a newline), and captures that remainder. -/
def parseAltSuffix (cs : List Char) : Option (Nat × Nat × String) :=
  let pa := takeDigits cs
  if pa.1 = [] then none else
  match pa.2 with
  | '.' :: r2 =>
    let pb := takeDigits r2
    if pb.1 = [] then none else
    match pb.2 with
    | sep :: r4 =>
      if sep = '-' ∨ sep = '_' ∨ sep = '.' then
        let core := if r4.getLast? = some '\n' then r4.dropLast else r4
        if core ≠ [] ∧ ¬ core.contains '\n' then
          some (digitsToNat pa.1, digitsToNat pb.1, ⟨core⟩)
        else none
      else none
    | [] => none
  | _ => none

/-- The lazy prefix group `(.*?)` of the anchored patch/minor/alt regexes: try
the anchored continuation `p` at every split point from the left (shortest
prefix first, as a lazy group does), never letting the prefix cross a newline
(regex `.` does not match a newline).  Returns the prefix and the value of the
continuation. -/
def scanLazyPre {α : Type} (p : List Char → Option α) : List Char → List Char → Option (List Char × α)
  | acc, rest =>
    match p rest with
    | some v => some (acc.reverse, v)
    | none =>
      match rest with
      | [] => none
      | c :: rest2 => if c = '\n' then none else scanLazyPre p (c :: acc) rest2

/-- `PyVersion.get_implementation`: `CPython` when the implementation string is
empty or whitespace-only, otherwise `Other`. -/
def get_implementation (implementation_string : List Char) : PyImplementation :=
  if implementation_string.all pyIsSpace then .CPython else .Other

/-- `PyVersion.get_tox_version_tuple`: `^(?:py|python)(\d)(\d+)$`.  The
alternation tries `py` first and backtracks to `python` when the continuation
fails after `py`. -/
def get_tox_version_tuple (cs : List Char) : Option (List VPart) :=
  match cs with
  | 'p' :: 'y' :: rest =>
    (match toxSuffix rest with
     | some p => some [.imp .CPython, .num p.1, .num p.2]
     | none =>
       match rest with
       | 't' :: 'h' :: 'o' :: 'n' :: rest2 =>
         (toxSuffix rest2).map fun p => [.imp .CPython, .num p.1, .num p.2]
       | _ => none)
  | _ => none

/-- `PyVersion.get_patch_version_tuple`: `^(.*?)(\d+)\.(\d+)\.(\d+)$`. -/
def get_patch_version_tuple (cs : List Char) : Option (List VPart) :=
  (scanLazyPre parsePatchSuffix [] cs).map fun r =>
    [.imp (get_implementation r.1), .num r.2.1, .num r.2.2.1, .num r.2.2.2]

/-- `PyVersion.get_minor_version_tuple`: `^(.*?)(\d+?)\.(\d+)$`. -/
def get_minor_version_tuple (cs : List Char) : Option (List VPart) :=
  (scanLazyPre parseMinorSuffix [] cs).map fun r =>
    [.imp (get_implementation r.1), .num r.2.1, .num r.2.2]

/-- `PyVersion.get_alt_version_tuple`: `^(.*?)(\d+?)\.(\d+)[-_\.](.+?)$`. -/
def get_alt_version_tuple (cs : List Char) : Option (List VPart) :=
  (scanLazyPre parseAltSuffix [] cs).map fun r =>
    [.imp (get_implementation r.1), .num r.2.1, .num r.2.2.1, .str r.2.2.2]

/-- `PyVersion.get_any_version_tuple` on a character list: the four shapes are
tried in the fixed order tox, patch, minor, alt; the first match wins, and on
failure the source returns the pair `(None, None)`. -/
def get_any_version_tuple_core (cs : List Char) :
    Option (List VPart) × Option PyVersionDetailLevel :=
  match get_tox_version_tuple cs with
  | some t => (some t, some .MINOR)
  | none =>
  match get_patch_version_tuple cs with
  | some t => (some t, some .PATCH)
  | none =>
  match get_minor_version_tuple cs with
  | some t => (some t, some .MINOR)
  | none =>
  match get_alt_version_tuple cs with
  | some t => (some t, some .MINOR)
  | none => (none, none)

/-- `PyVersion.get_any_version_tuple`. -/
def get_any_version_tuple (s : String) :
    Option (List VPart) × Option PyVersionDetailLevel :=
  get_any_version_tuple_core s.data

/-! ## The PyVersion record and its two construction paths -/

/-- `str` applied to one tuple component (python `str(part)`; the `str` of an
`Enum` member is its qualified name). -/
def partStr : VPart → String
  | .num n => toString n
  | .str s => s
  | .imp .CPython => "PyImplementation.CPython"
  | .imp .Other => "PyImplementation.Other"

/-- Python `'.'.join`. -/
def joinDot : List String → String
  | [] => ""
  | [x] => x
  | x :: y :: rest => x ++ "." ++ joinDot (y :: rest)

/-- `PyVersion.make_version_string`: the dot-joined string forms of all tuple
components except the implementation marker at index 0. -/
def make_version_string (version_tuple : List VPart) : String :=
  joinDot (version_tuple.tail.map partStr)

/-- `PyVersion.ensure_int_version_tuple`: every component that is not an `int`
(the implementation enum member and any alternate-form string suffix) is
replaced by `-1`, ranking below every actual patch number. -/
def ensure_int_version_tuple (version_tuple : List VPart) : List Int :=
  version_tuple.map fun p => match p with | .num n => (n : Int) | _ => -1

/-- The record stored for one python version, `PyVersion` in the source. -/
structure PyVersion where
  name : String
  version_tuple : Option (List VPart)
  version_detail_level : Option PyVersionDetailLevel
  version_string : Option String
  executable : Option String
deriving DecidableEq, Repr

/-- Python truthiness of an optional string (`None` and `""` are falsy). -/
def strTruthy : Option String → Bool
  | some s => s ≠ ""
  | none => false

/-- Python truthiness of an optional tuple (`None` and `()` are falsy). -/
def tupTruthy : Option (List VPart) → Bool
  | some (_ :: _) => true
  | _ => false

/-- `PyVersion.__init__` with a string argument: the record that results when
no exception is raised (tuple and detail level from the parser, the version
string derived from the tuple when the tuple is truthy). -/
def PyVersion.parsedRecord (name version_string : String) (executable : Option String) :
    PyVersion :=
  let p := get_any_version_tuple version_string
  ⟨name, p.1, p.2,
    if tupTruthy p.1 then some (make_version_string (p.1.getD [])) else none,
    executable⟩

/-- `PyVersion.__init__` with a string argument, `needs_version` included: when
`needs_version` is set and the parse produced no truthy tuple or no detail
level, `UnknownVersionStringFormat` is raised. -/
def PyVersion.initFromString (name version_string : String) (executable : Option String)
    (needs_version : Bool) : Except Exc PyVersion :=
  let p := get_any_version_tuple version_string
  if needs_version && (!tupTruthy p.1 || p.2.isNone) then
    .error (.unknownVersionStringFormat version_string)
  else
    .ok (PyVersion.parsedRecord name version_string executable)

/-- `PyVersion.__init__` with a tuple argument: the detail level is inferred
from the total length of the tuple via `PyVersionDetailLevel(len(tuple))`,
which raises `ValueError` (modelled as `none`) when the length is not 1, 2
or 3. -/
def PyVersion.initFromTuple (name : String) (version_tuple : List VPart)
    (executable : Option String) : Option PyVersion :=
  match detailLevelOfValue version_tuple.length with
  | some lvl =>
    some ⟨name, some version_tuple, some lvl,
      some (make_version_string version_tuple), executable⟩
  | none => none

/-! ## The pyenv registry (`PyEnv`) -/

/-- The outcomes of the external interactions a resolution run can perform:
the `which pyenv` lookup, the `pyenv root`, `pyenv install -l` and
`pyenv install <name>` subcommands, and the filesystem checks. -/
structure Env where
  whichPyenv : SpawnResult
  rootCmd : SpawnResult
  isDir : String → Bool
  listDir : String → List String
  installListCmd : SpawnResult
  installCmd : String → SpawnResult
  isFile : String → Bool

/-- A key of one of the python dict indexes.  The name and version-string
indexes are keyed by strings, and the version-tuple indexes by tuples; the
sum type lets a tuple be looked up in a string-keyed dict (always missing),
exactly as `find_installable_pyversion` does in the source. -/
inductive PyKey where
  | strKey (s : String)
  | tupKey (t : List VPart)
deriving DecidableEq, Repr

/-- Lookup in a python dict built by a comprehension: a later entry with the
same key overwrites an earlier one. -/
def dictLookup (pairs : List (PyKey × PyVersion)) (k : PyKey) : Option PyVersion :=
  pairs.foldl (fun acc p => if p.1 = k then some p.2 else acc) none

/-- `PyEnv.find_pyenv_executable`: `which pyenv` (or `where` on Windows); an
`OSError` from `Popen` is turned into `PyenvMissing` (the captured stderr is
still `None` at that point), a nonzero exit silently returns `None`. -/
def find_pyenv_executable (env : Env) : Except Exc (Option String) :=
  match env.whichPyenv with
  | .osError => .error (.pyenvMissing "pyenv missing; STDERR: None")
  | .ran code out _err => .ok (if code = 0 then some (pyStrip out) else none)

/-- `PyEnv.run_pyenv`: locate pyenv, then spawn the given subcommand (its
outcome `res` is read off the environment by the caller).  An `OSError` from
`Popen` raises the per-subcommand exception type, with the stderr slot still
`None`; when `find_pyenv_executable` returned `None`, `Popen` is handed `None`
as the program and raises a `TypeError` that nothing in the plugin catches. -/
def run_pyenv (env : Env) (res : SpawnResult) (err_string_on_os_error : String)
    (exception_type : String → Exc) : Except Exc (Int × String × String) :=
  match find_pyenv_executable env with
  | .error e => .error e
  | .ok none => .error .hostTypeError
  | .ok (some _) =>
    match res with
    | .osError => .error (exception_type (err_string_on_os_error ++ "; STDERR: None"))
    | .ran code out err => .ok (code, out, err)

/-- `PyEnv.install_using_pyenv`: run `pyenv install <name>`.  Exit code 0
returns `True`; a nonzero exit only logs and returns `False` (the `raise` in
the source is commented out); only an `OSError` while spawning raises
`PyenvInstallFailed`. -/
def install_using_pyenv (env : Env) (pyversion : PyVersion) : Except Exc Bool :=
  match run_pyenv env (env.installCmd pyversion.name) "install failed" .pyenvInstallFailed with
  | .error e => .error e
  | .ok (code, _out, _err) => .ok (if code = 0 then true else false)

/-- `PyEnv.get_installable_pyenv_version_strings`: `pyenv install -l`, strip
the output, split into lines, strip each line and drop the header line. -/
def get_installable_pyenv_version_strings (env : Env) : Except Exc (List String) :=
  match run_pyenv env env.installListCmd "install -l failed" .listInstallCandidatesFailed with
  | .error e => .error e
  | .ok (code, out, err) =>
    if code = 0 then
      .ok (((splitNL (pyStripList out.data)).map fun l => pyStrip ⟨l⟩).drop 1)
    else .error (.listInstallCandidatesFailed err)

/-- `PyEnv.get_installable_pyenv_pyversions`: each installable name is parsed
without requiring a version. -/
def get_installable_pyenv_pyversions (env : Env) : Except Exc (List PyVersion) :=
  match get_installable_pyenv_version_strings env with
  | .error e => .error e
  | .ok names => .ok (names.map fun s => PyVersion.parsedRecord s s none)

/-- `PyEnv.get_installable_pyenv_pyversions_name_dict`. -/
def get_installable_pyenv_pyversions_name_dict (env : Env) :
    Except Exc (List (PyKey × PyVersion)) :=
  match get_installable_pyenv_pyversions env with
  | .error e => .error e
  | .ok vs => .ok (vs.map fun v => (PyKey.strKey v.name, v))

/-- `PyEnv.get_installable_pyenv_pyversions_version_string_dict` (entries with
a falsy version string are excluded). -/
def get_installable_pyenv_pyversions_version_string_dict (env : Env) :
    Except Exc (List (PyKey × PyVersion)) :=
  match get_installable_pyenv_pyversions env with
  | .error e => .error e
  | .ok vs =>
    .ok ((vs.filter fun v => strTruthy v.version_string).map
      fun v => (PyKey.strKey (v.version_string.getD ""), v))

/-- `PyEnv.find_installable_pyversion_from_name`. -/
def find_installable_pyversion_from_name (env : Env) (name : PyKey) :
    Except Exc (Option PyVersion) :=
  match get_installable_pyenv_pyversions_name_dict env with
  | .error e => .error e
  | .ok d => .ok (dictLookup d name)

/-- `PyEnv.find_installable_pyversion_from_version_string`. -/
def find_installable_pyversion_from_version_string (env : Env) (version_string : String) :
    Except Exc (Option PyVersion) :=
  match get_installable_pyenv_pyversions_version_string_dict env with
  | .error e => .error e
  | .ok d => .ok (dictLookup d (.strKey version_string))

/-- `PyEnv.get_pyenv_root_path`: `pyenv root`, strip the output and require the
directory to exist. -/
def get_pyenv_root_path (env : Env) : Except Exc String :=
  match run_pyenv env env.rootCmd "pyenv root failed" .rootPathFailed with
  | .error e => .error e
  | .ok (code, out, err) =>
    if code = 0 then
      if env.isDir (pyStrip out) then .ok (pyStrip out)
      else .error (.rootPathFailed (pyStrip out))
    else .error (.rootPathFailed err)

/-- `PyEnv.get_pyenv_version_path`: the `versions/` directory under the pyenv
root, required to exist. -/
def get_pyenv_version_path (env : Env) : Except Exc String :=
  match get_pyenv_root_path env with
  | .error e => .error e
  | .ok root =>
    if env.isDir (root ++ "/versions/") then .ok (root ++ "/versions/")
    else .error (.listInstalledFailed (root ++ "/versions/"))

/-- `PyEnv.get_installed_version_strings`: the entries of the versions
directory. -/
def get_installed_version_strings (env : Env) : Except Exc (List String) :=
  match get_pyenv_version_path env with
  | .error e => .error e
  | .ok p => .ok (env.listDir p)

/-- `PyEnv.find_executable_for_installed_pyenv_version_name`: inside the
version entry, `bin/python3` then `bin/python`, the first existing file
wins, `None` if neither exists. -/
def find_executable_for_installed_pyenv_version_name (env : Env) (pyenv_version_name : String) :
    Except Exc (Option String) :=
  match get_pyenv_version_path env with
  | .error e => .error e
  | .ok vp =>
    .ok (List.find? env.isFile
      [vp ++ pyenv_version_name ++ "/bin/python3", vp ++ pyenv_version_name ++ "/bin/python"])

/-- The list comprehension of `PyEnv.get_installed_pyversions` over a list of
entry names. -/
def installed_pyversions_of_names (env : Env) : List String → Except Exc (List PyVersion)
  | [] => .ok []
  | n :: ns =>
    match find_executable_for_installed_pyenv_version_name env n with
    | .error e => .error e
    | .ok exec =>
      match installed_pyversions_of_names env ns with
      | .error e => .error e
      | .ok rest => .ok (PyVersion.parsedRecord n n exec :: rest)

/-- `PyEnv.get_installed_pyversions`. -/
def get_installed_pyversions (env : Env) : Except Exc (List PyVersion) :=
  match get_installed_version_strings env with
  | .error e => .error e
  | .ok names => installed_pyversions_of_names env names

/-- `PyEnv.get_installed_pyversions_name_dict`. -/
def get_installed_pyversions_name_dict (env : Env) :
    Except Exc (List (PyKey × PyVersion)) :=
  match get_installed_pyversions env with
  | .error e => .error e
  | .ok vs => .ok (vs.map fun v => (PyKey.strKey v.name, v))

/-- `PyEnv.get_installed_pyversions_version_string_dict`. -/
def get_installed_pyversions_version_string_dict (env : Env) :
    Except Exc (List (PyKey × PyVersion)) :=
  match get_installed_pyversions env with
  | .error e => .error e
  | .ok vs =>
    .ok ((vs.filter fun v => strTruthy v.version_string).map
      fun v => (PyKey.strKey (v.version_string.getD ""), v))

/-- `PyEnv.get_installed_pyversions_version_tuple_dict`. -/
def get_installed_pyversions_version_tuple_dict (env : Env) :
    Except Exc (List (PyKey × PyVersion)) :=
  match get_installed_pyversions env with
  | .error e => .error e
  | .ok vs =>
    .ok ((vs.filter fun v => tupTruthy v.version_tuple).map
      fun v => (PyKey.tupKey (v.version_tuple.getD []), v))

/-- `PyEnv.find_installed_pyversion_from_name`. -/
def find_installed_pyversion_from_name (env : Env) (name : PyKey) :
    Except Exc (Option PyVersion) :=
  match get_installed_pyversions_name_dict env with
  | .error e => .error e
  | .ok d => .ok (dictLookup d name)

/-- `PyEnv.find_installed_pyversion_from_version_string`. -/
def find_installed_pyversion_from_version_string (env : Env) (version_string : String) :
    Except Exc (Option PyVersion) :=
  match get_installed_pyversions_version_string_dict env with
  | .error e => .error e
  | .ok d => .ok (dictLookup d (.strKey version_string))

/-- `PyEnv.find_installed_pyversion_from_version_tuple`. -/
def find_installed_pyversion_from_version_tuple (env : Env) (version_tuple : List VPart) :
    Except Exc (Option PyVersion) :=
  match get_installed_pyversions_version_tuple_dict env with
  | .error e => .error e
  | .ok d => .ok (dictLookup d (.tupKey version_tuple))

/-- `PyEnv.find_installed_pyversion`: by version string (when truthy), else by
version tuple (when truthy), else by name. -/
def find_installed_pyversion (env : Env) (pyversion : PyVersion) :
    Except Exc (Option PyVersion) :=
  match (if strTruthy pyversion.version_string then
            find_installed_pyversion_from_version_string env (pyversion.version_string.getD "")
          else .ok none) with
  | .error e => .error e
  | .ok r1 =>
    match (match r1 with
           | some v => Except.ok (some v)
           | none =>
             if tupTruthy pyversion.version_tuple then
               find_installed_pyversion_from_version_tuple env (pyversion.version_tuple.getD [])
             else .ok none) with
    | .error e => .error e
    | .ok r2 =>
      match r2 with
      | some v => .ok (some v)
      | none => find_installed_pyversion_from_name env (.strKey pyversion.name)

/-- `PyEnv.find_installable_pyversion`: by version string in the installable
index (when truthy); else, when the version tuple is truthy, the tuple itself
is passed as the `name` key of the installable name index (a tuple never
equals a string key, so this lookup always misses); finally by name — in the
installed index, not the installable one. -/
def find_installable_pyversion (env : Env) (pyversion : PyVersion) :
    Except Exc (Option PyVersion) :=
  match (if strTruthy pyversion.version_string then
            find_installable_pyversion_from_version_string env (pyversion.version_string.getD "")
          else .ok none) with
  | .error e => .error e
  | .ok r1 =>
    match (match r1 with
           | some v => Except.ok (some v)
           | none =>
             if tupTruthy pyversion.version_tuple then
               find_installable_pyversion_from_name env (.tupKey (pyversion.version_tuple.getD []))
             else .ok none) with
    | .error e => .error e
    | .ok r2 =>
      match r2 with
      | some v => .ok (some v)
      | none => find_installed_pyversion_from_name env (.strKey pyversion.name)

/-- `PyEnv.match_python_version_tuple`: true exactly when each component of the
first tuple is present and equal at the same position of the second. -/
def match_python_version_tuple : List VPart → List VPart → Bool
  | [], _ => true
  | _ :: _, [] => false
  | a :: as, b :: bs => a == b && match_python_version_tuple as bs

/-- The candidate condition shared by `find_latest_installed_patch_version` and
`find_latest_installable_patch_version`: the candidate name starts with the
requested name, or both version strings are truthy and the candidate version
string starts with the requested one; and both version tuples are truthy and
the requested tuple prefix-matches the candidate tuple. -/
def latest_filter (install_pyversion pyversion : PyVersion) : Bool :=
  (strStartsWith pyversion.name install_pyversion.name ||
    (strTruthy pyversion.version_string && strTruthy install_pyversion.version_string &&
      strStartsWith (pyversion.version_string.getD "") (install_pyversion.version_string.getD ""))) &&
  tupTruthy install_pyversion.version_tuple &&
  tupTruthy pyversion.version_tuple &&
  match_python_version_tuple (install_pyversion.version_tuple.getD [])
    (pyversion.version_tuple.getD [])

/-- Lexicographic `<` on python int tuples. -/
def lexLt : List Int → List Int → Bool
  | _, [] => false
  | [], _ :: _ => true
  | a :: as, b :: bs => if a < b then true else if b < a then false else lexLt as bs

/-- Python `max(candidates, key=k)`: the first candidate whose key is maximal
(a later candidate replaces the current maximum only when strictly greater). -/
def maxByKey (key : PyVersion → List Int) : List PyVersion → Option PyVersion
  | [] => none
  | x :: xs => some (xs.foldl (fun acc y => if lexLt (key acc) (key y) then y else acc) x)

/-- The ordering key used by both latest-patch searches. -/
def latestKey (pyversion : PyVersion) : List Int :=
  ensure_int_version_tuple (pyversion.version_tuple.getD [])

/-- `PyEnv.find_latest_installed_patch_version`. -/
def find_latest_installed_patch_version (env : Env) (install_pyversion : PyVersion) :
    Except Exc (Option PyVersion) :=
  match get_installed_pyversions env with
  | .error e => .error e
  | .ok pvs =>
    let candidates := pvs.filter (latest_filter install_pyversion)
    if candidates.length = 0 then .ok none
    else .ok (maxByKey latestKey candidates)

/-- `PyEnv.find_latest_installable_patch_version`. -/
def find_latest_installable_patch_version (env : Env) (install_pyversion : PyVersion) :
    Except Exc (Option PyVersion) :=
  match get_installable_pyenv_pyversions env with
  | .error e => .error e
  | .ok pvs =>
    let candidates := pvs.filter (latest_filter install_pyversion)
    if candidates.length = 0 then .ok none
    else .ok (maxByKey latestKey candidates)

/-! ## The resolver (`tox_get_python_executable`) -/

/-- The value returned by `if found_version and found_version.executable:
return found_version.executable`: the executable when the lookup result is
truthy and carries a truthy executable path. -/
def execOf : Option PyVersion → Option String
  | some v =>
    match v.executable with
    | some e => if e ≠ "" then some e else none
    | none => none
  | none => none

/-- The tail of the resolver body reached when nothing was found or installed:
raise `PyEnvPluginFailed` when no fallback is allowed, otherwise produce no
result. -/
def fallthrough_result (noFallback : Bool) : Except Exc (Option String) :=
  if noFallback then .error .pluginFailed else .ok none

/-- The body of the `try` block of `tox_get_python_executable` (source lines
521 to 606): parse the environment name (required), try the direct installed
lookup, then either the auto-install branch or the latest-installed-patch
branch, falling through to `fallthrough_result`. -/
def resolve_body (env : Env) (envname : String)
    (autoInstall alwaysLatestPatch noFallback : Bool) : Except Exc (Option String) :=
  match PyVersion.initFromString envname envname none true with
  | .error e => .error e
  | .ok pyversion =>
    match find_installed_pyversion env pyversion with
    | .error e => .error e
    | .ok found =>
      match execOf found with
      | some e => .ok (some e)
      | none =>
        if autoInstall then
          match find_installable_pyversion env pyversion with
          | .error e => .error e
          | .ok exact0 =>
            match (match exact0 with
                   | some v => Except.ok (some v)
                   | none =>
                     if pyversion.version_detail_level = some PyVersionDetailLevel.MINOR ∨
                        pyversion.version_detail_level = some PyVersionDetailLevel.MAJOR then
                       match (if alwaysLatestPatch then Except.ok none
                              else find_latest_installed_patch_version env pyversion) with
                       | .error e => .error e
                       | .ok (some v) => Except.ok (some v)
                       | .ok none => find_latest_installable_patch_version env pyversion
                     else Except.ok (some pyversion)) with
            | .error e => .error e
            | .ok none => fallthrough_result noFallback
            | .ok (some install_pyversion) =>
              match find_installed_pyversion env install_pyversion with
              | .error e => .error e
              | .ok already =>
                match execOf already with
                | some e => .ok (some e)
                | none =>
                  match install_using_pyenv env install_pyversion with
                  | .error e => .error e
                  | .ok installed =>
                    if installed then
                      match find_installed_pyversion env install_pyversion with
                      | .error e => .error e
                      | .ok newly =>
                        match execOf newly with
                        | some e => .ok (some e)
                        | none => fallthrough_result noFallback
                    else fallthrough_result noFallback
        else
          match find_latest_installed_patch_version env pyversion with
          | .error e => .error e
          | .ok latest =>
            match execOf latest with
            | some e => .ok (some e)
            | none => fallthrough_result noFallback

/-- `tox_get_python_executable`: the resolver body wrapped in the
`except ToxPyenvException` handler, which re-raises when no fallback is
allowed and otherwise swallows the exception, yielding no result. -/
def tox_get_python_executable (env : Env) (envname : String)
    (autoInstall alwaysLatestPatch noFallback : Bool) : Except Exc (Option String) :=
  match resolve_body env envname autoInstall alwaysLatestPatch noFallback with
  | .error e =>
    if isToxPyenvException e then
      if noFallback then .error e else .ok none
    else .error e
  | .ok r => .ok r

/-- The exact-candidate lookup as the specification describes it: the
installable version whose normalized version string equals the requested one
(when the requested record has a truthy one), and as final fallback the
*installed* version whose name equals the requested raw name.  Stated
separately from `find_installable_pyversion` so that the two can be proved
equal: the middle lookup of the source, which feeds a tuple key into a
string-keyed dict, contributes nothing. -/
def find_installable_pyversion_claim (env : Env) (pyversion : PyVersion) :
    Except Exc (Option PyVersion) :=
  match (if strTruthy pyversion.version_string then
            find_installable_pyversion_from_version_string env (pyversion.version_string.getD "")
          else .ok none) with
  | .error e => .error e
  | .ok (some v) => .ok (some v)
  | .ok none => find_installed_pyversion_from_name env (.strKey pyversion.name)

/-! ## Concrete environments used by the concrete theorems -/

/-- An environment whose pyenv has the patch versions 3.11.2 and 3.11.5
installed, each with a `bin/python3` executable. -/
def envTwoPatches : Env :=
  ⟨.ran 0 "/usr/bin/pyenv" "",
   .ran 0 "/pyenv" "",
   fun s => s == "/pyenv" || s == "/pyenv/versions/",
   fun _ => ["3.11.2", "3.11.5"],
   .ran 0 "Available versions:\n  3.11.2\n  3.11.5" "",
   fun _ => .ran 1 "" "",
   fun s => s == "/pyenv/versions/3.11.2/bin/python3" || s == "/pyenv/versions/3.11.5/bin/python3"⟩

/-- An environment with a working pyenv, no installed versions, and two
installable versions, neither of which matches 3.99. -/
def envNoMatch : Env :=
  ⟨.ran 0 "/usr/bin/pyenv" "",
   .ran 0 "/pyenv" "",
   fun s => s == "/pyenv" || s == "/pyenv/versions/",
   fun _ => [],
   .ran 0 "Available versions:\n  2.7.18\n  3.11.2" "",
   fun _ => .ran 1 "" "build error",
   fun _ => false⟩

/-- An environment in which `pyenv install` exits with code 1 and stderr
output. -/
def envInstallExitsNonzero : Env :=
  ⟨.ran 0 "/usr/bin/pyenv" "",
   .ran 0 "/pyenv" "",
   fun s => s == "/pyenv" || s == "/pyenv/versions/",
   fun _ => [],
   .ran 0 "Available versions:\n  3.11.2" "",
   fun _ => .ran 1 "" "BUILD FAILED",
   fun _ => false⟩

/-- The parsed record for the installed entry 3.11.4. -/
def pv3114 : PyVersion := PyVersion.parsedRecord "3.11.4" "3.11.4" none

/-- The parsed record for the installed entry 3.11-dev (alternate form, string
suffix in the tuple). -/
def pv311dev : PyVersion := PyVersion.parsedRecord "3.11-dev" "3.11-dev" none

/-- The parsed record for the installed entry 3.11.9. -/
def pv3119 : PyVersion := PyVersion.parsedRecord "3.11.9" "3.11.9" none

/-! ## Helper lemmas -/

theorem takeDigits_all (ds : List Char) (h : ∀ c ∈ ds, c.isDigit = true) :
    takeDigits ds = (ds, []) := by
  induction ds with
  | nil => rfl
  | cons c cs ih =>
    have hc : c.isDigit = true := h c (by simp)
    have ih2 := ih fun x hx => h x (by simp [hx])
    simp [takeDigits, hc, ih2]

theorem match_tuple_append : ∀ (rt ct : List VPart),
    match_python_version_tuple rt ct = true → ∃ ext, ct = rt ++ ext
  | [], ct, _ => ⟨ct, rfl⟩
  | _ :: _, [], h => by simp [match_python_version_tuple] at h
  | a :: as, b :: bs, h => by
    simp only [match_python_version_tuple, Bool.and_eq_true, beq_iff_eq] at h
    obtain ⟨ext, hext⟩ := match_tuple_append as bs h.2
    exact ⟨ext, by simp [h.1, hext]⟩

theorem charsStartWith_self_append : ∀ (xs ys : List Char),
    charsStartWith xs (xs ++ ys) = true
  | [], _ => rfl
  | c :: cs, ys => by simp [charsStartWith, charsStartWith_self_append cs ys]

theorem charsStartWith_refl (xs : List Char) : charsStartWith xs xs = true := by
  simpa using charsStartWith_self_append xs []

theorem charsStartWith_append_both (pre u v : List Char) :
    charsStartWith (pre ++ u) (pre ++ v) = charsStartWith u v := by
  induction pre with
  | nil => rfl
  | cons c cs ih => simp [charsStartWith, ih]

theorem charsStartWith_ne_nil (p l : List Char) (h : charsStartWith p l = true)
    (hp : p ≠ []) : l ≠ [] := by
  cases p with
  | nil => exact absurd rfl hp
  | cons a as =>
    cases l with
    | nil => simp [charsStartWith] at h
    | cons b bs => simp

theorem joinDot_data_startsWith : ∀ (xs ys : List String),
    charsStartWith (joinDot xs).data (joinDot (xs ++ ys)).data = true
  | [], _ => by simp [joinDot, charsStartWith]
  | [x], [] => by simpa [joinDot] using charsStartWith_refl x.data
  | [x], y :: ys => by
    simp only [List.cons_append, List.nil_append, joinDot, String.data_append]
    rw [List.append_assoc]
    exact charsStartWith_self_append x.data _
  | x :: x2 :: rest, ys => by
    simp only [List.cons_append, joinDot, String.data_append]
    rw [List.append_assoc, List.append_assoc, charsStartWith_append_both]
    exact joinDot_data_startsWith (x2 :: rest) ys

/-- Prefix tuple match implies the version-string startswith relation of the
derived version strings (part one of C9, used also in its second part). -/
theorem match_tuple_version_string (rt ct : List VPart)
    (h : match_python_version_tuple rt ct = true) :
    strStartsWith (make_version_string ct) (make_version_string rt) = true := by
  obtain ⟨ext, rfl⟩ := match_tuple_append rt ct h
  cases rt with
  | nil => simp [strStartsWith, make_version_string, joinDot, charsStartWith]
  | cons a as =>
    simp only [strStartsWith, make_version_string, List.cons_append, List.tail_cons,
      List.map_append]
    exact joinDot_data_startsWith (as.map partStr) (ext.map partStr)

theorem str_ne_empty_iff (s : String) : s ≠ "" ↔ s.data ≠ [] := by
  rw [not_iff_not, String.ext_iff]

theorem dictLookup_tupKey_in_strKeys {α : Type} (l : List α) (f : α → String)
    (g : α → PyVersion) (t : List VPart) :
    dictLookup (l.map fun a => (PyKey.strKey (f a), g a)) (PyKey.tupKey t) = none := by
  induction l with
  | nil => rfl
  | cons v vs ih => simpa [dictLookup, List.foldl] using ih

theorem lexLt_cons_same (x : Int) (as bs : List Int) :
    lexLt (x :: as) (x :: bs) = lexLt as bs := by
  simp [lexLt]

theorem match_tuple_iff : ∀ (less more : List VPart),
    match_python_version_tuple less more = true ↔
      ∀ i, i < less.length → less[i]? = more[i]?
  | [], more => by simp [match_python_version_tuple]
  | a :: as, [] => by
    simp only [match_python_version_tuple, Bool.false_eq_true, false_iff]
    intro h
    have h0 := h 0 (by simp)
    simp at h0
  | a :: as, b :: bs => by
    have ih := match_tuple_iff as bs
    simp only [match_python_version_tuple, Bool.and_eq_true, beq_iff_eq]
    constructor
    · rintro ⟨rfl, hm⟩ i hi
      cases i with
      | zero => simp
      | succ j =>
        have hj := (ih.mp hm) j (by simpa using hi)
        simpa using hj
    · intro h
      refine ⟨?_, ih.mpr ?_⟩
      · have h0 := h 0 (by simp)
        simpa using h0
      · intro j hj
        have hs := h (j + 1) (by simpa using hj)
        simpa using hs

/-! ## The claims -/

/-- C6: the tuple prefix-match predicate holds exactly when every component of
the requested tuple equals the candidate tuple component at the same position,
extra trailing candidate components being allowed; in particular a requested
(CPython, 3, 11) matches the candidates (CPython, 3, 11, 0) and
(CPython, 3, 11, 4) but matches neither (CPython, 3, 12, 0) nor
(CPython, 3, 1, 0). -/
theorem c6_prefix_match_characterization :
    (∀ less more : List VPart,
      match_python_version_tuple less more = true ↔
        ∀ i, i < less.length → less[i]? = more[i]?)
    ∧ match_python_version_tuple [.imp .CPython, .num 3, .num 11]
        [.imp .CPython, .num 3, .num 11, .num 0] = true
    ∧ match_python_version_tuple [.imp .CPython, .num 3, .num 11]
        [.imp .CPython, .num 3, .num 11, .num 4] = true
    ∧ match_python_version_tuple [.imp .CPython, .num 3, .num 11]
        [.imp .CPython, .num 3, .num 12, .num 0] = false
    ∧ match_python_version_tuple [.imp .CPython, .num 3, .num 11]
        [.imp .CPython, .num 3, .num 1, .num 0] = false :=
  ⟨match_tuple_iff, by decide, by decide, by decide, by decide⟩

/-- C6 witness: the characterization instantiated at the concrete example
tuples of the claim. -/
theorem c6_witness :
    match_python_version_tuple [.imp .CPython, .num 3, .num 11]
      [.imp .CPython, .num 3, .num 11, .num 0] = true :=
  c6_prefix_match_characterization.2.1

/-- C7: the ordering key maps every non-integer tuple component to -1 and
compares element-wise, so a suffixed version with the same implementation,
major and minor sorts strictly below any real patch release; and over the
concrete candidates 3.11.4, 3.11-dev and 3.11.9 the maximum-by-key selection
used by the latest-patch searches returns 3.11.9. -/
theorem c7_ordering_key :
    (∀ (i : PyImplementation) (ma mi : Nat) (s : String) (p : Nat),
      lexLt (ensure_int_version_tuple [.imp i, .num ma, .num mi, .str s])
        (ensure_int_version_tuple [.imp i, .num ma, .num mi, .num p]) = true)
    ∧ maxByKey latestKey [pv3114, pv311dev, pv3119] = some pv3119 := by
  constructor
  · intro i ma mi s p
    have hp : (-1 : Int) < (p : Int) := by omega
    simp only [ensure_int_version_tuple, List.map]
    rw [lexLt_cons_same, lexLt_cons_same, lexLt_cons_same]
    simp [lexLt, hp]
  · rfl

/-- C7 witness: the ordering fact instantiated at the concrete suffix dev and
patch number 4. -/
theorem c7_witness :
    lexLt (ensure_int_version_tuple [.imp .CPython, .num 3, .num 11, .str "dev"])
      (ensure_int_version_tuple [.imp .CPython, .num 3, .num 11, .num 4]) = true :=
  c7_ordering_key.1 .CPython 3 11 "dev" 4

/-- C8: every short runner form, a prefix py or python directly followed by
one digit and at least one further digit, parses to the structured tuple
(CPython, first digit, remaining digits) with detail level MINOR; and the
short runner shape takes priority: whenever the tox regex matches, the parser
returns its result. -/
theorem c8_short_runner_form :
    (∀ (d : Char) (ds : List Char), d.isDigit = true → ds ≠ [] →
      (∀ c ∈ ds, c.isDigit = true) →
      get_any_version_tuple_core ('p' :: 'y' :: d :: ds) =
        (some [.imp .CPython, .num (digitVal d), .num (digitsToNat ds)], some .MINOR))
    ∧ (∀ (d : Char) (ds : List Char), d.isDigit = true → ds ≠ [] →
      (∀ c ∈ ds, c.isDigit = true) →
      get_any_version_tuple_core ('p' :: 'y' :: 't' :: 'h' :: 'o' :: 'n' :: d :: ds) =
        (some [.imp .CPython, .num (digitVal d), .num (digitsToNat ds)], some .MINOR))
    ∧ (∀ (cs : List Char) (t : List VPart), get_tox_version_tuple cs = some t →
        get_any_version_tuple_core cs = (some t, some .MINOR)) := by
  have hsuffix : ∀ (d : Char) (ds : List Char), d.isDigit = true → ds ≠ [] →
      (∀ c ∈ ds, c.isDigit = true) →
      toxSuffix (d :: ds) = some (digitVal d, digitsToNat ds) := by
    intro d ds hd hne hds
    simp [toxSuffix, hd, takeDigits_all ds hds, hne, atEnd]
  refine ⟨?_, ?_, ?_⟩
  · intro d ds hd hne hds
    have htox : get_tox_version_tuple ('p' :: 'y' :: d :: ds) =
        some [.imp .CPython, .num (digitVal d), .num (digitsToNat ds)] := by
      simp [get_tox_version_tuple, hsuffix d ds hd hne hds]
    simp [get_any_version_tuple_core, htox]
  · intro d ds hd hne hds
    have hnone : toxSuffix ('t' :: 'h' :: 'o' :: 'n' :: d :: ds) = none := by
      simp [toxSuffix]
    have htox : get_tox_version_tuple ('p' :: 'y' :: 't' :: 'h' :: 'o' :: 'n' :: d :: ds) =
        some [.imp .CPython, .num (digitVal d), .num (digitsToNat ds)] := by
      simp [get_tox_version_tuple, hnone, hsuffix d ds hd hne hds]
    simp [get_any_version_tuple_core, htox]
  · intro cs t h
    simp [get_any_version_tuple_core, h]

/-- C8 witness: the string py311 parses to (CPython, 3, 11) at detail level
MINOR. -/
theorem c8_witness :
    get_any_version_tuple "py311" =
      (some [.imp .CPython, .num 3, .num 11], some .MINOR) := by
  exact c8_short_runner_form.1 '3' ['1', '1'] (by decide) (by decide) (by decide)

/-- C9: for version records that carry structured tuples with their derived
version strings, a tuple prefix match forces the candidate version string to
start with the requested version string, so the extra name/version-string
startswith disjunct of the latest-patch candidate condition is redundant: the
condition evaluates exactly to the pure tuple prefix match. -/
theorem c9_startswith_redundant :
    (∀ rt ct : List VPart, match_python_version_tuple rt ct = true →
      strStartsWith (make_version_string ct) (make_version_string rt) = true)
    ∧ (∀ (r c : PyVersion) (rt ct : List VPart),
        r.version_tuple = some rt → c.version_tuple = some ct →
        r.version_string = some (make_version_string rt) →
        c.version_string = some (make_version_string ct) →
        make_version_string rt ≠ "" →
        latest_filter r c = match_python_version_tuple rt ct) := by
  refine ⟨match_tuple_version_string, ?_⟩
  intro r c rt ct h1 h2 h3 h4 h5
  by_cases hm : match_python_version_tuple rt ct = true
  · rw [hm]
    have hsw := match_tuple_version_string rt ct hm
    have hrt_ne : rt ≠ [] := by
      intro hnil
      exact h5 (by simp [hnil, make_version_string, joinDot])
    have hct_ne : ct ≠ [] := by
      obtain ⟨ext, hext⟩ := match_tuple_append rt ct hm
      intro hnil
      rw [hext] at hnil
      exact hrt_ne (List.append_eq_nil.mp hnil).1
    have hmvs_ct : make_version_string ct ≠ "" := by
      rw [str_ne_empty_iff] at h5 ⊢
      exact charsStartWith_ne_nil _ _ hsw h5
    obtain ⟨a, as, rfl⟩ := List.exists_cons_of_ne_nil hrt_ne
    obtain ⟨b, bs, rfl⟩ := List.exists_cons_of_ne_nil hct_ne
    simp [latest_filter, h1, h2, h3, h4, strTruthy, tupTruthy, h5, hmvs_ct, hsw, hm]
  · rw [Bool.not_eq_true] at hm
    rw [hm]
    simp [latest_filter, h1, h2, hm]

/-- C9 witness: the equality of the candidate condition and the pure tuple
prefix match at the parsed records for 3.11 and 3.11.4. -/
theorem c9_witness :
    latest_filter (PyVersion.parsedRecord "3.11" "3.11" none)
        (PyVersion.parsedRecord "3.11.4" "3.11.4" none) =
      match_python_version_tuple [.imp .CPython, .num 3, .num 11]
        [.imp .CPython, .num 3, .num 11, .num 4] :=
  c9_startswith_redundant.2 (PyVersion.parsedRecord "3.11" "3.11" none)
    (PyVersion.parsedRecord "3.11.4" "3.11.4" none)
    [.imp .CPython, .num 3, .num 11] [.imp .CPython, .num 3, .num 11, .num 4]
    rfl rfl rfl rfl (by decide)

/-- C10: the tuple construction path of `PyVersion.__init__` infers the detail
level from the total tuple length including the implementation component, so a
three-element tuple (implementation, major, minor) gets detail level PATCH,
and a four-element tuple, the shape the patch and alternate forms produce,
makes construction fail; in particular the tuple parsed from 3.11.2 has length
four and is rejected by this path. -/
theorem c10_tuple_init_detail_level :
    (∀ (name : String) (exec : Option String) (i : PyImplementation) (a b : Nat),
      PyVersion.initFromTuple name [.imp i, .num a, .num b] exec =
        some ⟨name, some [.imp i, .num a, .num b], some .PATCH,
          some (make_version_string [.imp i, .num a, .num b]), exec⟩)
    ∧ (∀ (name : String) (exec : Option String) (t : List VPart),
        t.length = 4 → PyVersion.initFromTuple name t exec = none)
    ∧ ((get_any_version_tuple "3.11.2").1 =
        some [.imp .CPython, .num 3, .num 11, .num 2]
      ∧ PyVersion.initFromTuple "3.11.2" [.imp .CPython, .num 3, .num 11, .num 2] none =
        none) := by
  refine ⟨fun name exec i a b => rfl, ?_, by constructor <;> rfl⟩
  intro name exec t h
  simp [PyVersion.initFromTuple, h, detailLevelOfValue]

/-- C10 witness: the length-four hypothesis discharged at the tuple of
3.11.2 with a fresh name. -/
theorem c10_witness :
    PyVersion.initFromTuple "anything" [.imp .CPython, .num 3, .num 11, .num 2] none =
      none :=
  c10_tuple_init_detail_level.2.1 "anything" none
    [.imp .CPython, .num 3, .num 11, .num 2] (by decide)

/-- C1 counterexample: with noFallback false, a requested name that matches
none of the four shapes does NOT raise the unrecognized-version-format error
to the caller; the top-level handler swallows it and the resolver returns no
result, contrary to the claim that malformed requested strings are hard
errors regardless of the noFallback flag. -/
theorem c1_counterexample :
    tox_get_python_executable envTwoPatches "notaversion" false false false = .ok none := by
  rfl

/-- C1 (amended): a requested name that matches none of the four shapes raises
the unrecognized-version-format error inside the resolver body; the error
reaches the caller when noFallback is true, but when noFallback is false it is
swallowed like every other plugin exception and the resolver returns no
result. -/
theorem c1_amended (env : Env) (envname : String) (autoInstall alwaysLatestPatch : Bool)
    (h : get_any_version_tuple envname = (none, none)) :
    tox_get_python_executable env envname autoInstall alwaysLatestPatch true =
      .error (.unknownVersionStringFormat envname)
    ∧ tox_get_python_executable env envname autoInstall alwaysLatestPatch false = .ok none := by
  have hb : PyVersion.initFromString envname envname none true =
      .error (.unknownVersionStringFormat envname) := by
    simp [PyVersion.initFromString, h, tupTruthy]
  constructor <;>
    simp [tox_get_python_executable, resolve_body, hb, isToxPyenvException]

/-- C1 witness: the amended behaviour at the unparseable name notaversion. -/
theorem c1_witness :
    tox_get_python_executable envTwoPatches "notaversion" false false true =
      .error (.unknownVersionStringFormat "notaversion")
    ∧ tox_get_python_executable envTwoPatches "notaversion" false false false = .ok none :=
  c1_amended envTwoPatches "notaversion" false false (by rfl)

/-- C2: requested 3.11 with autoInstall false against an environment whose
installed versions are exactly 3.11.2 and 3.11.5, each with an executable:
the resolver returns the executable path of the 3.11.5 installation, the
maximum prefix-matching patch under the ordering rule. -/
theorem c2_latest_installed_patch :
    tox_get_python_executable envTwoPatches "3.11" false false false =
      .ok (some "/pyenv/versions/3.11.5/bin/python3") := by
  rfl

/-- C3: when the installable listing succeeds, the exact-candidate lookup
returns the installable version whose normalized string equals the requested
one, and otherwise falls back to the version found by the requested raw name
in the *installed* index: the middle lookup, which feeds the version tuple
into the string-keyed name dict, contributes nothing. -/
theorem c3_exact_candidate_lookup (env : Env) (pyversion : PyVersion)
    (h : ∃ l, get_installable_pyenv_version_strings env = .ok l) :
    find_installable_pyversion env pyversion =
      find_installable_pyversion_claim env pyversion := by
  obtain ⟨l, hl⟩ := h
  have hmid : ∀ t, find_installable_pyversion_from_name env (.tupKey t) = .ok none := by
    intro t
    unfold find_installable_pyversion_from_name get_installable_pyenv_pyversions_name_dict
      get_installable_pyenv_pyversions
    rw [hl]
    exact congrArg Except.ok
      (dictLookup_tupKey_in_strKeys (l.map fun s => PyVersion.parsedRecord s s none)
        (fun v => v.name) (fun v => v) t)
  unfold find_installable_pyversion find_installable_pyversion_claim
  by_cases hs : strTruthy pyversion.version_string = true
  · simp only [hs, if_true]
    cases hv : find_installable_pyversion_from_version_string env
        (pyversion.version_string.getD "") with
    | error e => simp
    | ok r1 =>
      cases r1 with
      | some v => simp
      | none =>
        by_cases ht : tupTruthy pyversion.version_tuple = true
        · simp [ht, hmid]
        · simp [ht]
  · simp only [Bool.not_eq_true] at hs
    simp only [hs, Bool.false_eq_true, if_false]
    by_cases ht : tupTruthy pyversion.version_tuple = true
    · simp [ht, hmid]
    · simp [ht]

/-- C3 witness: the lookup equality at a concrete environment whose
installable listing succeeds. -/
theorem c3_witness :
    find_installable_pyversion envNoMatch (PyVersion.parsedRecord "3.11.2" "3.11.2" none) =
      find_installable_pyversion_claim envNoMatch
        (PyVersion.parsedRecord "3.11.2" "3.11.2" none) :=
  c3_exact_candidate_lookup envNoMatch (PyVersion.parsedRecord "3.11.2" "3.11.2" none)
    ⟨["2.7.18", "3.11.2"], by rfl⟩

/-- C4 counterexample: when `pyenv install` exits with a nonzero code, the
registry does NOT raise the install-failed error; `install_using_pyenv`
merely reports the unsuccessful installation by returning False. -/
theorem c4_counterexample :
    install_using_pyenv envInstallExitsNonzero
      (PyVersion.parsedRecord "3.11.2" "3.11.2" none) = .ok false := by
  rfl

/-- C4 (amended): with a locatable pyenv, a nonzero exit of the install
subcommand makes `install_using_pyenv` return False without raising (the
raise in the source is commented out and the stderr text is only logged);
the install-failed error is raised only when spawning the subprocess fails
with an OS error, and then its message carries no captured stderr. -/
theorem c4_amended (env : Env) (pyversion : PyVersion) (wout werr : String)
    (hw : env.whichPyenv = .ran 0 wout werr) :
    (∀ (code : Int) (out err : String), env.installCmd pyversion.name = .ran code out err →
      code ≠ 0 → install_using_pyenv env pyversion = .ok false)
    ∧ (env.installCmd pyversion.name = .osError →
      install_using_pyenv env pyversion =
        .error (.pyenvInstallFailed "install failed; STDERR: None")) := by
  constructor
  · intro code out err hc hcode
    simp [install_using_pyenv, run_pyenv, find_pyenv_executable, hw, hc, hcode]
  · intro hc
    simp [install_using_pyenv, run_pyenv, find_pyenv_executable, hw, hc]

/-- C4 witness: the amended behaviour at a concrete environment whose install
subcommand exits with code 1. -/
theorem c4_witness :
    install_using_pyenv envInstallExitsNonzero
      (PyVersion.parsedRecord "3.11.5" "3.11.5" none) = .ok false :=
  (c4_amended envInstallExitsNonzero (PyVersion.parsedRecord "3.11.5" "3.11.5" none)
    "/usr/bin/pyenv" "" rfl).1 1 "" "BUILD FAILED" rfl (by decide)

/-- C5: with autoInstall true and a requested version of minor or major detail
level for which the installed lookup, the exact installable lookup and both
latest-patch searches all produce nothing, the resolver falls through: it
raises the plugin-failed error when noFallback is true and returns no result
when noFallback is false, in neither case returning an executable path. -/
theorem c5_fallthrough (env : Env) (envname : String) (pyversion : PyVersion)
    (alwaysLatestPatch : Bool)
    (hp : PyVersion.initFromString envname envname none true = .ok pyversion)
    (hdl : pyversion.version_detail_level = some .MINOR ∨
      pyversion.version_detail_level = some .MAJOR)
    (h1 : find_installed_pyversion env pyversion = .ok none)
    (h2 : find_installable_pyversion env pyversion = .ok none)
    (h3 : find_latest_installed_patch_version env pyversion = .ok none)
    (h4 : find_latest_installable_patch_version env pyversion = .ok none) :
    tox_get_python_executable env envname true alwaysLatestPatch true =
      .error .pluginFailed
    ∧ tox_get_python_executable env envname true alwaysLatestPatch false = .ok none := by
  have hb : ∀ nf, resolve_body env envname true alwaysLatestPatch nf =
      fallthrough_result nf := by
    intro nf
    rcases hdl with hdl | hdl <;> cases alwaysLatestPatch <;>
      simp [resolve_body, hp, h1, h2, h3, h4, hdl, execOf]
  constructor <;>
    simp [tox_get_python_executable, hb, fallthrough_result, isToxPyenvException]

/-- C5 witness: the fallthrough at requested 3.99 in an environment with no
installed versions and no matching installable version. -/
theorem c5_witness :
    tox_get_python_executable envNoMatch "3.99" true false true = .error .pluginFailed
    ∧ tox_get_python_executable envNoMatch "3.99" true false false = .ok none :=
  c5_fallthrough envNoMatch "3.99" (PyVersion.parsedRecord "3.99" "3.99" none) false
    (by rfl) (Or.inl (by rfl)) (by rfl) (by rfl) (by rfl) (by rfl)

end ToxPyenv
